import Mathlib

/-!
Verification of the WhereHaveIBeen gateway (src/app.py) against its design
specification. The Python handlers are shallowly embedded: each Flask handler
becomes a pure Lean function from its inputs (form/query/JSON fields, the
signed session, and the outcome of the outbound HTTP call it performs) to the
session it leaves behind and the response it produces. Library calls
(requests, datetime, str methods) are embedded by their documented semantics.
-/

namespace WHIB

/-! ## Python string primitives used by the handlers -/

/-- Semantics of the Python slice s[1:]: drop the first character. -/
def pyDrop1 (s : String) : String := ⟨s.data.drop 1⟩

/-- Semantics of the Python s.endswith(suffix) test. -/
def pyEndsWith (s suf : String) : Bool := suf.data.isSuffixOf s.data

/-- One left-to-right non-overlapping replacement pass, as performed by the
Python str.replace method. The fuel argument bounds recursion; it is always
called with the length of the subject string, which suffices because every
step consumes at least one character of the subject. -/
def replaceAllAux : Nat → List Char → List Char → List Char → List Char
  | 0, s, _, _ => s
  | _ + 1, [], _, _ => []
  | fuel + 1, c :: rest, pat, rep =>
    if pat.isPrefixOf (c :: rest) ∧ pat ≠ [] then
      rep ++ replaceAllAux fuel ((c :: rest).drop pat.length) pat rep
    else
      c :: replaceAllAux fuel rest pat rep

/-- Semantics of the Python s.replace(pat, rep) for a non-empty pattern:
replace every non-overlapping occurrence, scanning left to right. -/
def pyReplace (s pat rep : String) : String :=
  ⟨replaceAllAux s.data.length s.data pat.data rep.data⟩

/-- ASCII whitespace stripped by the Python str.strip method. -/
def isPySpace (c : Char) : Bool :=
  decide (c = ' ') || decide (c = '\t') || decide (c = '\n') ||
  decide (c = '\r') || decide (c.toNat = 11) || decide (c.toNat = 12)

/-- Semantics of the Python s.strip(): remove leading and trailing whitespace. -/
def pyStrip (s : String) : String :=
  ⟨((s.data.dropWhile isPySpace).reverse.dropWhile isPySpace).reverse⟩

/-- ASCII case folding of one character, as the Python str.lower method acts
on the username alphabet of this application. -/
def pyLowerChar (c : Char) : Char :=
  if 'A' ≤ c ∧ c ≤ 'Z' then Char.ofNat (c.toNat + 32) else c

/-- Semantics of the Python s.lower() on ASCII text. -/
def pyLower (s : String) : String := ⟨s.data.map pyLowerChar⟩

/-- Truthiness test used by the handlers on optional strings: Python treats
both a missing value and the empty string as false. -/
def pyFalsyStr : Option String → Bool
  | none => true
  | some s => s.isEmpty

/-! ## Time model

The location handler parses client dates with datetime.fromisoformat, shifts
them to UTC with astimezone(pytz.UTC) and renders them with
isoformat(timespec=milliseconds) followed by replacing the +00:00 offset by Z.
A parsed datetime is embedded as the microsecond count of its naive civil
fields since 1970-01-01T00:00:00 together with its optional UTC offset; a
naive datetime (no zone information in the input string) has no offset and is
interpreted by astimezone in the local zone of the server process, embedded
here as an arbitrary offset in seconds. -/

/-- A parsed Python datetime: naive civil time in microseconds since the epoch
of the civil calendar, plus the optional fixed UTC offset in seconds carried
by its tzinfo. -/
structure PyDatetime where
  naiveMicro : Int
  offsetSec : Option Int
  deriving DecidableEq, Repr

/-- The instant (microseconds since the UTC epoch) denoted by a datetime; a
naive datetime is interpreted at the local offset of the server process. -/
def instantMicro (dt : PyDatetime) (localOffsetSec : Int) : Int :=
  dt.naiveMicro - 1000000 * (dt.offsetSec.getD localOffsetSec)

/-- Semantics of local_dt.astimezone(pytz.UTC): the same instant, carried by a
datetime whose civil fields are UTC and whose offset is zero. -/
def astimezoneUTC (dt : PyDatetime) (localOffsetSec : Int) : PyDatetime :=
  ⟨instantMicro dt localOffsetSec, some 0⟩

/-- Truncation of an instant to whole milliseconds, the loss performed by
isoformat(timespec=milliseconds). -/
def msTruncMicro (i : Int) : Int := i - i % 1000

/-- Days since 1970-01-01 of the civil day containing the naive microsecond
count; division on Int is Euclidean, which here agrees with the flooring
division of Python. -/
def daysOf (n : Int) : Int := n / 86400000000

/-- Microseconds elapsed within the civil day of the naive microsecond count. -/
def todOf (n : Int) : Nat := (n % 86400000000).toNat

/-- Gregorian calendar date of a day count relative to 1970-01-01 (standard
era-based civil-from-days computation). -/
def civilFromDays (z0 : Int) : Int × Nat × Nat :=
  let z := z0 + 719468
  let era := z / 146097
  let doe : Nat := (z - era * 146097).toNat
  let yoe := (doe - doe / 1460 + doe / 36524 - doe / 146096) / 365
  let y : Int := (yoe : Int) + era * 400
  let doy := doe - (365 * yoe + yoe / 4 - yoe / 100)
  let mp := (5 * doy + 2) / 153
  let d := doy - (153 * mp + 2) / 5 + 1
  let m := if mp < 10 then mp + 3 else mp - 9
  (if m ≤ 2 then y + 1 else y, m, d)

/-- Character for the last decimal digit of a natural number. -/
def digitOfNat (n : Nat) : Char :=
  match n % 10 with
  | 0 => '0' | 1 => '1' | 2 => '2' | 3 => '3' | 4 => '4'
  | 5 => '5' | 6 => '6' | 7 => '7' | 8 => '8' | _ => '9'

/-- Decimal digit characters of a natural number, most significant first. -/
def natDigitsAux : Nat → Nat → List Char
  | 0, _ => []
  | fuel + 1, n =>
    if n < 10 then [digitOfNat n] else natDigitsAux fuel (n / 10) ++ [digitOfNat n]

/-- Decimal rendering of a natural number, zero-padded to the given width. -/
def natPad (width n : Nat) : List Char :=
  let ds := natDigitsAux (n + 1) n
  List.replicate (width - ds.length) '0' ++ ds

/-- ISO-8601 date-time text at millisecond precision from its seven rendered
field values, matching the layout of the Python isoformat method. -/
def renderDateTimeMs (y : Int) (m d hh mi ss ms : Nat) : List Char :=
  natPad 4 y.toNat ++ ('-' :: (natPad 2 m ++ ('-' :: (natPad 2 d ++
  ('T' :: (natPad 2 hh ++ (':' :: (natPad 2 mi ++ (':' :: (natPad 2 ss ++
  ('.' :: natPad 3 ms)))))))))))

/-- ISO-8601 rendering, at millisecond precision and without any offset
suffix, of the naive civil time given in microseconds. -/
def isoNaiveMs (n : Int) : String :=
  ⟨renderDateTimeMs (civilFromDays (daysOf n)).1 (civilFromDays (daysOf n)).2.1
    (civilFromDays (daysOf n)).2.2 (todOf n / 3600000000) (todOf n / 60000000 % 60)
    (todOf n / 1000000 % 60) (todOf n / 1000 % 1000)⟩

/-- Offset suffix appended by the Python isoformat method: nothing for a naive
datetime, a signed hours-minutes offset otherwise. -/
def offsetSuffix : Option Int → String
  | none => ""
  | some s =>
    let sign := if s < 0 then "-" else "+"
    let a := s.natAbs
    sign ++ ⟨natPad 2 (a / 3600) ++ ':' :: natPad 2 (a / 60 % 60)⟩

/-- Semantics of dt.isoformat(timespec=milliseconds). -/
def isoformatMilliseconds (dt : PyDatetime) : String :=
  isoNaiveMs dt.naiveMicro ++ offsetSuffix dt.offsetSec

/-- The Time Normalizer of the location handler: shift the parsed datetime to
UTC and render it, replacing the +00:00 offset text by Z, exactly as the
source does with astimezone, isoformat and replace. -/
def convertToUTCWire (dt : PyDatetime) (localOffsetSec : Int) : String :=
  pyReplace (isoformatMilliseconds (astimezoneUTC dt localOffsetSec)) "+00:00" "Z"

/-! ## Sessions and backend outcomes -/

/-- Opaque body of the generic internal error responses, the
INTERNAL_ERROR_MESSAGE constant of the source. -/
def INTERNAL_ERROR_MESSAGE : String := "An internal error has occurred."

/-- The signed client-held session: optional credentials, the two UI
preference keys, and the permanent flag. -/
structure Session where
  username : Option String
  password : Option String
  circle_size : Option String
  osrm_url : Option String
  permanent : Bool
  deriving DecidableEq, Repr

/-- The empty session: the state before login and after session.clear(). -/
def initialSession : Session :=
  { username := none, password := none, circle_size := none, osrm_url := none,
    permanent := false }

/-- Outcome of one outbound HTTP call made with the requests library: either a
raised RequestException, or a response with a status code and a body. -/
inductive Outcome (α : Type) where
  | netErr (msg : String)
  | resp (status : Nat) (body : α)
  deriving DecidableEq, Repr

/-! ## Login handler -/

/-- Response of the login handler: a redirect on success, or the index page
re-rendered with a login error message and a status code. -/
inductive LoginResp where
  | redirectTo (loc : String)
  | page (loginError : String) (status : Nat)
  deriving DecidableEq, Repr

/-- The POST /login handler. The probe argument is the outcome of the
validation GET against the last-known-position endpoint of the backend, made
with the submitted credentials and a 10 second timeout; its body is
discarded. -/
def login (sess : Session) (username password : String) (probe : Outcome Unit) :
    Session × LoginResp :=
  match probe with
  | .netErr _ => (sess, .page "Could not connect to server." 500)
  | .resp s _ =>
    if s ≠ 200 then (sess, .page "Invalid username or password." 401)
    else
      ({ sess with permanent := true, username := some username,
                   password := some password },
       .redirectTo "/")

/-! ## Registration handler -/

/-- Character class of the username pattern of the register handler. -/
def isUserChar (c : Char) : Bool :=
  decide ('a' ≤ c ∧ c ≤ 'z') || decide ('A' ≤ c ∧ c ≤ 'Z') ||
  decide ('0' ≤ c ∧ c ≤ '9') || decide (c = '_') || decide (c = '-')

/-- Username acceptance of the register handler: non-empty, at most fifty
characters, all from the letters-digits-hyphen-underscore class. -/
def usernameValid (s : String) : Bool :=
  decide (1 ≤ s.length) && decide (s.length ≤ 50) && s.data.all isUserChar

/-- Presence of an ASCII uppercase letter, the Python re.search for A to Z. -/
def hasUpper (s : String) : Bool := s.data.any fun c => decide ('A' ≤ c ∧ c ≤ 'Z')

/-- Presence of an ASCII lowercase letter. -/
def hasLower (s : String) : Bool := s.data.any fun c => decide ('a' ≤ c ∧ c ≤ 'z')

/-- Presence of an ASCII digit. -/
def hasDigit (s : String) : Bool := s.data.any fun c => decide ('0' ≤ c ∧ c ≤ '9')

/-- Local validation sequence of the register handler, applied to the already
stripped username: the first failing check produces its message. -/
def registerLocalError (username password : String) : Option String :=
  if !usernameValid username then
    some "Username must be 1-50 characters (letters, numbers, hyphens, underscores)."
  else if password.length < 12 then
    some "Password must be at least 12 characters."
  else if !hasUpper password then
    some "Password must contain an uppercase letter."
  else if !hasLower password then
    some "Password must contain a lowercase letter."
  else if !hasDigit password then
    some "Password must contain a number."
  else none

/-- JSON response of the register and delete handlers: either an error message
produced by the gateway, or the backend body passed through; each with its
status code. -/
inductive JsonResp where
  | jsonErr (msg : String) (status : Nat)
  | passThrough (body : String) (status : Nat)
  deriving DecidableEq, Repr

/-- Credentials payload of an outbound registration or deletion POST. -/
structure RegPayload where
  username : String
  password : String
  deriving DecidableEq, Repr

/-- Result of the register handler: the session left behind, the response, and
the payload of the backend call if one was made. -/
structure RegisterResult where
  session : Session
  resp : JsonResp
  payloadSent : Option RegPayload
  deriving DecidableEq, Repr

/-- The POST /register handler. The raw inputs are the JSON fields (missing
fields already defaulted to the empty string); the username is stripped before
validation. The backend argument is the outcome of the registration POST; its
body is the parsed JSON, or nothing when the body is not valid JSON, in which
case the json call raises and the generic handler answers. On a 201 the
session is established before the body is read. -/
def register (sess : Session) (rawUsername rawPassword : String)
    (backend : Outcome (Option String)) : RegisterResult :=
  let username := pyStrip rawUsername
  match registerLocalError username rawPassword with
  | some msg => ⟨sess, .jsonErr msg 400, none⟩
  | none =>
    match backend with
    | .netErr _ => ⟨sess, .jsonErr INTERNAL_ERROR_MESSAGE 500, some ⟨username, rawPassword⟩⟩
    | .resp s body =>
      let sess' := if s = 201 then
          { sess with permanent := true, username := some username,
                      password := some rawPassword }
        else sess
      match body with
      | some b => ⟨sess', .passThrough b s, some ⟨username, rawPassword⟩⟩
      | none => ⟨sess', .jsonErr INTERNAL_ERROR_MESSAGE 500, some ⟨username, rawPassword⟩⟩

/-! ## Account deletion handler -/

/-- Result of the delete handler, of the same shape as registration. -/
structure DeleteResult where
  session : Session
  resp : JsonResp
  payloadSent : Option RegPayload
  deriving DecidableEq, Repr

/-- The POST /delete-account handler. The password argument is the JSON field,
already defaulted to the empty string when the body or field is missing. The
backend argument is the outcome of the deletion POST. The session is cleared
exactly on a backend 200, before the body is read. -/
def delete_account (sess : Session) (password : String)
    (backend : Outcome (Option String)) : DeleteResult :=
  if pyFalsyStr sess.username then ⟨sess, .jsonErr "Not logged in." 401, none⟩
  else if password.isEmpty then ⟨sess, .jsonErr "Password is required." 400, none⟩
  else
    let payload : RegPayload := ⟨sess.username.getD "", password⟩
    match backend with
    | .netErr _ => ⟨sess, .jsonErr INTERNAL_ERROR_MESSAGE 500, some payload⟩
    | .resp s body =>
      let sess' := if s = 200 then initialSession else sess
      match body with
      | some b => ⟨sess', .passThrough b s, some payload⟩
      | none => ⟨sess', .jsonErr INTERNAL_ERROR_MESSAGE 500, some payload⟩

/-! ## Sign-out and settings handlers -/

/-- The GET /sign_out handler: clear the session and redirect to the root. -/
def sign_out (_sess : Session) : Session × String := (initialSession, "/")

/-- The POST /save_settings handler: store both preference values (possibly
absent) and mark the session permanent. -/
def save_settings (sess : Session) (circleSize osrmURL : Option String) :
    Session × String :=
  ({ sess with permanent := true, circle_size := circleSize, osrm_url := osrmURL },
   "Settings saved successfully")

/-- The GET /get_settings handler: read both preference values. -/
def get_settings (sess : Session) : Option String × Option String :=
  (sess.circle_size, sess.osrm_url)

/-! ## Location history handler -/

/-- The query parameter dictionary of the location-history request built by
the handler. -/
structure LocParams where
  from_ : String
  to_ : String
  user : String
  device : Option String
  format : String
  deriving DecidableEq, Repr

/-- Construction of the location query: hard-coded default bounds overwritten
by the normalized client dates when supplied, the lower-cased session
username, the optional device filter, and the fixed geojson format. -/
def locationParams (startDate endDate : Option PyDatetime) (device : Option String)
    (sessUsername : Option String) (localOffsetSec : Int) : LocParams :=
  { from_ := match startDate with
      | none => "2015-01-01T01:00:00.0002Z"
      | some dt => convertToUTCWire dt localOffsetSec
    to_ := match endDate with
      | none => "2099-12-31T23:59:59.000Z"
      | some dt => convertToUTCWire dt localOffsetSec
    user := pyLower (sessUsername.getD "")
    device := device
    format := "geojson" }

/-- Response of the location handler: the backend GeoJSON body on success, or
the opaque internal error. -/
inductive LocationsResp where
  | ok (body : String)
  | internalError
  deriving DecidableEq, Repr

/-- Client-facing status code of a location response. -/
def LocationsResp.statusCode : LocationsResp → Nat
  | .ok _ => 200
  | .internalError => 500

/-- Client-facing body of a location response. -/
def LocationsResp.clientBody : LocationsResp → String
  | .ok b => b
  | .internalError => INTERNAL_ERROR_MESSAGE

/-- One entry of the last-known-position list returned by the backend: its
username field (absent when the key is missing, then defaulted to the empty
string by the handler) and the rest of the record, opaque. -/
structure DeviceEntry where
  username : Option String
  rest : String
  deriving DecidableEq, Repr

/-- Response of the device-list handler: the filtered entry list on success,
or the opaque internal error. -/
inductive DevicesResp where
  | ok (entries : List DeviceEntry)
  | internalError
  deriving DecidableEq, Repr

/-- Client-facing status code of a device-list response. -/
def DevicesResp.statusCode : DevicesResp → Nat
  | .ok _ => 200
  | .internalError => 500

/-- The GET /usersdevices handler. The backend argument is the outcome of the
authenticated GET against the last-known-position endpoint. On success the
entries are filtered to those whose lower-cased username equals the
lower-cased session username. The filter is a list comprehension whose
condition is evaluated once per entry: with no session username, the lower
call on None raises an AttributeError at the first entry, answered by the
generic exception branch with the opaque internal error, while an empty
backend list evaluates no condition at all and is returned as the empty
result. -/
def get_users_devices (sess : Session)
    (backend : Outcome (Option (List DeviceEntry))) :
    (Option String × Option String) × DevicesResp :=
  let auth := (sess.username, sess.password)
  match backend with
  | .netErr _ => (auth, .internalError)
  | .resp s body =>
    if 400 ≤ s ∧ s < 600 then (auth, .internalError)
    else
      match body with
      | none => (auth, .internalError)
      | some data =>
        match sess.username with
        | none =>
          match data with
          | [] => (auth, .ok [])
          | _ :: _ => (auth, .internalError)
        | some u =>
          (auth, .ok (data.filter fun e => pyLower (e.username.getD "") == pyLower u))

/-! ## Insecure proxy handler -/

/-- Raw target URL of the proxy before the suffix workaround: the override
base when present and non-empty (Python truthiness) else the process-wide
default, then the route path and the coords value with its first character
dropped. -/
def proxyRawTarget (osrmURL : Option String) (defaultOsrm coords : String) : String :=
  let c := pyDrop1 coords
  match osrmURL with
  | some u => if u.isEmpty then defaultOsrm ++ "/route/v1/" ++ c
              else u ++ "/route/v1/" ++ c
  | none => defaultOsrm ++ "/route/v1/" ++ c

/-- Final target URL of the proxy: when the raw URL ends with the literal
overview suffix, the replace call of the source removes its occurrences. -/
def proxyTarget (osrmURL : Option String) (defaultOsrm coords : String) : String :=
  let t := proxyRawTarget osrmURL defaultOsrm coords
  if pyEndsWith t "?overview=false" then pyReplace t "?overview=false" "" else t

/-- Response of the proxy handler: the backend JSON body, or the generic
framework error page produced for an uncaught exception (the handler has no
try block; with debugging off the WSGI layer answers a fixed 500 page that
carries no exception detail). -/
inductive ProxyResp where
  | ok (body : String)
  | frameworkError
  deriving DecidableEq, Repr

/-- Client-facing status code of a proxy response. -/
def ProxyResp.statusCode : ProxyResp → Nat
  | .ok _ => 200
  | .frameworkError => 500

/-- Client-facing body of a proxy response; the framework page is a constant
independent of the raised error. -/
def ProxyResp.clientBody : ProxyResp → String
  | .ok b => b
  | .frameworkError => "Internal Server Error"

/-- A run of the proxy handler: the target URL it built, the list of URLs it
fetched, and its response. -/
structure ProxyRun where
  target : String
  requestsMade : List String
  response : ProxyResp
  deriving Repr

/-- The GET /proxy handler. The transport argument gives the outcome of an
HTTP GET per URL; the handler performs exactly one GET, to the target URL,
with no status check, and returns the JSON body; a transport error or a
non-JSON body raises out of the handler into the framework. -/
def proxy_route (osrmURL : Option String) (defaultOsrm coords : String)
    (transport : String → Outcome (Option String)) : ProxyRun :=
  let target := proxyTarget osrmURL defaultOsrm coords
  match transport target with
  | .netErr _ => ⟨target, [target], .frameworkError⟩
  | .resp _ body =>
    match body with
    | some b => ⟨target, [target], .ok b⟩
    | none => ⟨target, [target], .frameworkError⟩

/-! ## Session lifecycle -/

/-- One handler-level operation on a session, carrying its client inputs and
the outcome of any outbound call it makes. -/
inductive Op where
  | loginOp (u p : String) (probe : Outcome Unit)
  | registerOp (u p : String) (backend : Outcome (Option String))
  | signOutOp
  | deleteAccountOp (password : String) (backend : Outcome (Option String))
  | saveSettingsOp (circleSize osrmURL : Option String)

/-- Session left behind by one operation. -/
def Op.step (sess : Session) : Op → Session
  | .loginOp u p probe => (login sess u p probe).1
  | .registerOp u p bk => (register sess u p bk).session
  | .signOutOp => (sign_out sess).1
  | .deleteAccountOp pwd bk => (delete_account sess pwd bk).session
  | .saveSettingsOp cs ou => (save_settings sess cs ou).1

/-- Credential consistency: username and password are both absent or both
present. -/
def credsConsistent (s : Session) : Prop := s.username.isSome = s.password.isSome

/-! ## Declarative single-pass replacement

A relational specification of one left-to-right non-overlapping replacement
pass, used to state what the overview-suffix workaround of the proxy does to
the whole URL. -/

/-- ReplacedAll pat rep s out holds when out is exactly s with every
non-overlapping occurrence of pat replaced by rep in one left-to-right
pass. -/
inductive ReplacedAll (pat rep : List Char) : List Char → List Char → Prop where
  | nil : ReplacedAll pat rep [] []
  | keep (c : Char) (s out : List Char) :
      pat.isPrefixOf (c :: s) = false →
      ReplacedAll pat rep s out → ReplacedAll pat rep (c :: s) (c :: out)
  | hit (s out : List Char) :
      ReplacedAll pat rep s out → ReplacedAll pat rep (pat ++ s) (rep ++ out)

/-! ## Theorems -/

/-- C1: when both date parameters are absent, the built location query carries
the literal defaults of the source. The lower bound is the string
2015-01-01T01:00:00.0002Z, which differs from the documented default
2015-01-01T01:00:00.000Z and has four fractional digits rather than
millisecond precision, while the upper bound matches its documented default
exactly. -/
theorem locations_default_bounds :
    (locationParams none none none (some "alice") 0).from_ = "2015-01-01T01:00:00.0002Z"
    ∧ "2015-01-01T01:00:00.0002Z" ≠ "2015-01-01T01:00:00.000Z"
    ∧ (locationParams none none none (some "alice") 0).to_ = "2099-12-31T23:59:59.000Z" :=
  ⟨rfl, by decide, rfl⟩

/-- C2: for every POST /login request, a 200 probe establishes the session
(credentials stored, permanent flag set) and redirects; any other probe status
yields 401 with the login error message and an unchanged session; a raised
network error yields 500 with an unchanged session. -/
theorem login_behavior (sess : Session) (u p : String) :
    login sess u p (.resp 200 ()) =
      ({ sess with permanent := true, username := some u, password := some p },
       .redirectTo "/")
    ∧ (∀ s, s ≠ 200 → login sess u p (.resp s ()) =
        (sess, .page "Invalid username or password." 401))
    ∧ ∀ e, login sess u p (.netErr e) =
        (sess, .page "Could not connect to server." 500) :=
  ⟨by simp [login], fun s hs => by simp [login, hs], fun _ => rfl⟩

/-- Witness for C2 at a concrete rejected login. -/
theorem login_behavior_witness :
    login initialSession "alice" "hunter2hunter2" (.resp 403 ()) =
      (initialSession, .page "Invalid username or password." 401) :=
  (login_behavior initialSession "alice" "hunter2hunter2").2.1 403 (by decide)

/-- C3: on a successful backend response, the device-list handler returns
exactly the entries whose username field case-insensitively equals the session
username: the result is the filter of the backend list, it is a sublist of the
backend list (relative order preserved), and membership in it is equivalent to
membership in the backend list together with the case-folded username
match. -/
theorem users_devices_filter (sess : Session) (u : String) (s : Nat)
    (data : List DeviceEntry) (hu : sess.username = some u) (hs : s < 400) :
    (get_users_devices sess (.resp s (some data))).2
        = .ok (data.filter fun e => pyLower (e.username.getD "") == pyLower u)
    ∧ (data.filter fun e => pyLower (e.username.getD "") == pyLower u).Sublist data
    ∧ ∀ e, e ∈ (data.filter fun e => pyLower (e.username.getD "") == pyLower u)
        ↔ e ∈ data ∧ pyLower (e.username.getD "") = pyLower u := by
  refine ⟨?_, List.filter_sublist _, fun e => ?_⟩
  · have hcond : ¬(400 ≤ s ∧ s < 600) := by omega
    simp [get_users_devices, hu, hcond]
  · rw [List.mem_filter]
    simp

/-- Witness for C3 on a concrete backend list with a mixed-case match. -/
theorem users_devices_filter_witness :
    (get_users_devices
        { initialSession with username := some "Alice", password := some "pw" }
        (.resp 200 (some [⟨some "alice", "d1"⟩, ⟨some "bob", "d2"⟩]))).2
      = .ok [⟨some "alice", "d1"⟩] := by
  rw [(users_devices_filter
    { initialSession with username := some "Alice", password := some "pw" }
    "Alice" 200 [⟨some "alice", "d1"⟩, ⟨some "bob", "d2"⟩] rfl (by decide)).1]
  decide

/-- C5: the delete handler answers 401 for a missing (falsy) session username
regardless of payload and backend, 400 for an empty password, and otherwise
calls the backend with the session username and supplied password, clears the
session exactly on a backend 200, and passes the backend body and status
through. -/
theorem delete_account_behavior (sess : Session) (pwd : String) :
    (pyFalsyStr sess.username = true →
      ∀ bk, delete_account sess pwd bk = ⟨sess, .jsonErr "Not logged in." 401, none⟩)
    ∧ (pyFalsyStr sess.username = false → pwd.isEmpty = true →
      ∀ bk, delete_account sess pwd bk = ⟨sess, .jsonErr "Password is required." 400, none⟩)
    ∧ (pyFalsyStr sess.username = false → pwd.isEmpty = false →
      ∀ (s : Nat) (b : String),
        delete_account sess pwd (.resp s (some b)) =
          ⟨if s = 200 then initialSession else sess, .passThrough b s,
           some ⟨sess.username.getD "", pwd⟩⟩) := by
  refine ⟨fun h1 bk => ?_, fun h1 h2 bk => ?_, fun h1 h2 s b => ?_⟩
  · simp [delete_account, h1]
  · simp [delete_account, h1, h2]
  · simp [delete_account, h1, h2]

/-- Witness for C5 at a concrete anonymous session. -/
theorem delete_account_behavior_witness :
    delete_account initialSession "pw" (.resp 200 (some "gone")) =
      ⟨initialSession, .jsonErr "Not logged in." 401, none⟩ :=
  (delete_account_behavior initialSession "pw").1 (by decide) _

/-- Preservation of credential consistency by every handler-level session
operation. -/
theorem credsConsistent_step (s : Session) (op : Op) (h : credsConsistent s) :
    credsConsistent (Op.step s op) := by
  cases op with
  | loginOp u p probe =>
    cases probe with
    | netErr m => simpa [Op.step, login] using h
    | resp st b =>
      by_cases hst : st = 200
      · simp [Op.step, login, hst, credsConsistent]
      · simpa [Op.step, login, hst] using h
  | registerOp u p bk =>
    cases hle : registerLocalError (pyStrip u) p with
    | some msg => simpa [Op.step, register, hle] using h
    | none =>
      cases bk with
      | netErr m => simpa [Op.step, register, hle] using h
      | resp st body =>
        by_cases hst : st = 201
        · cases body <;> simp [Op.step, register, hle, hst, credsConsistent]
        · cases body <;> simpa [Op.step, register, hle, hst] using h
  | signOutOp => simp [Op.step, sign_out, initialSession, credsConsistent]
  | deleteAccountOp pwd bk =>
    by_cases h1 : pyFalsyStr s.username = true
    · simpa [Op.step, delete_account, h1] using h
    · by_cases h2 : pwd.isEmpty = true
      · simpa [Op.step, delete_account, h1, h2] using h
      · cases bk with
        | netErr m => simpa [Op.step, delete_account, h1, h2] using h
        | resp st body =>
          by_cases hst : st = 200
          · cases body <;>
              simp [Op.step, delete_account, h1, h2, hst, initialSession, credsConsistent]
          · cases body <;>
              simpa [Op.step, delete_account, h1, h2, hst] using h
  | saveSettingsOp cs ou => simpa [Op.step, save_settings, credsConsistent] using h

/-- C9: starting from the anonymous session, every sequence of handler-level
operations (login, register, sign-out, account deletion, settings save) leaves
the username and password fields both absent or both present. -/
theorem session_credentials_invariant (ops : List Op) :
    credsConsistent (ops.foldl Op.step initialSession) := by
  have h : ∀ (l : List Op) (s : Session), credsConsistent s →
      credsConsistent (l.foldl Op.step s) := by
    intro l
    induction l with
    | nil => intro s hs; simpa using hs
    | cons op l ih => intro s hs; exact ih _ (credsConsistent_step s op hs)
  exact h ops initialSession (by simp [credsConsistent, initialSession])

/-- C4 counterexample: the register handler strips the username before
validating, so the raw username with surrounding spaces is outside the allowed
class yet the request is not rejected with a 400: validation passes and the
backend body is passed through. -/
theorem register_strip_counterexample :
    (register initialSession " abc " "ValidPass123" (.resp 201 (some "ok"))).resp
      = .passThrough "ok" 201
    ∧ usernameValid " abc " = false := by
  exact ⟨by decide, by decide⟩

/-- C4 (amended): local validation of the register handler runs before any
backend call and yields a 400 with the specific failing message exactly when
the whitespace-stripped username is not a 1-50 character string over letters,
digits, hyphen and underscore, or the password is shorter than 12 characters
or lacks an uppercase letter, a lowercase letter or a digit; when validation
passes, the backend registration call is made with the stripped username. -/
theorem register_local_validation (rawU rawP : String) (sess : Session)
    (bk : Outcome (Option String)) :
    (registerLocalError (pyStrip rawU) rawP = none ↔
        usernameValid (pyStrip rawU) = true ∧ 12 ≤ rawP.length ∧
        hasUpper rawP = true ∧ hasLower rawP = true ∧ hasDigit rawP = true)
    ∧ (∀ msg, registerLocalError (pyStrip rawU) rawP = some msg →
        register sess rawU rawP bk = ⟨sess, .jsonErr msg 400, none⟩)
    ∧ (registerLocalError (pyStrip rawU) rawP = none →
        (register sess rawU rawP bk).payloadSent = some ⟨pyStrip rawU, rawP⟩) := by
  refine ⟨?_, fun msg hmsg => ?_, fun hnone => ?_⟩
  · unfold registerLocalError
    split_ifs with h1 h2 h3 h4 h5 <;> simp_all
  · simp [register, hmsg]
  · cases bk with
    | netErr m => simp [register, hnone]
    | resp s body => cases body <;> simp [register, hnone]

/-- Witness for C4 at the accepted username and password of the spec. -/
theorem register_local_validation_witness :
    (register initialSession "ab_cd-12" "ValidPass123" (.resp 201 (some "created"))).payloadSent
      = some ⟨"ab_cd-12", "ValidPass123"⟩ :=
  ((register_local_validation "ab_cd-12" "ValidPass123" initialSession
      (.resp 201 (some "created"))).2.2 (by decide)).trans (by decide)

/-- C7: the proxy performs exactly one GET, to its target URL (no retry); a
raised transport error produces the generic framework 500 whose status and
body are constants, and the whole run is independent of the error payload, so
no exception detail reaches the client. -/
theorem proxy_single_attempt (osrmURL : Option String) (defaultOsrm coords : String)
    (transport : String → Outcome (Option String)) :
    (proxy_route osrmURL defaultOsrm coords transport).requestsMade
      = [proxyTarget osrmURL defaultOsrm coords]
    ∧ (∀ e, transport (proxyTarget osrmURL defaultOsrm coords) = .netErr e →
        (proxy_route osrmURL defaultOsrm coords transport).response = .frameworkError
        ∧ (proxy_route osrmURL defaultOsrm coords transport).response.statusCode = 500
        ∧ (proxy_route osrmURL defaultOsrm coords transport).response.clientBody
            = "Internal Server Error")
    ∧ ∀ e1 e2, proxy_route osrmURL defaultOsrm coords (fun _ => .netErr e1)
        = proxy_route osrmURL defaultOsrm coords (fun _ => .netErr e2) := by
  refine ⟨?_, fun e he => ?_, fun e1 e2 => rfl⟩
  · cases h : transport (proxyTarget osrmURL defaultOsrm coords) with
    | netErr m => simp [proxy_route, h]
    | resp s body => cases body <;> simp [proxy_route, h]
  · refine ⟨?_, ?_, ?_⟩ <;> simp [proxy_route, he, ProxyResp.statusCode, ProxyResp.clientBody]

/-- Witness for C7 at a concrete transport failure. -/
theorem proxy_single_attempt_witness :
    (proxy_route none "http://r" "/x" (fun _ => .netErr "connection refused")).response
      = .frameworkError :=
  ((proxy_single_attempt none "http://r" "/x" (fun _ => .netErr "connection refused")).2.1
    "connection refused" rfl).1

/-- Characterization of a successful Boolean prefix test: the tested list is
the pattern followed by what remains after dropping the pattern length. -/
theorem isPrefixOf_append_drop : ∀ (p l : List Char), p.isPrefixOf l = true →
    l = p ++ l.drop p.length := by
  intro p
  induction p with
  | nil => intro l _; simp
  | cons a p ih =>
    intro l h
    cases l with
    | nil => simp [List.isPrefixOf] at h
    | cons b l' =>
      simp only [List.isPrefixOf, Bool.and_eq_true, beq_iff_eq] at h
      obtain ⟨hab, h2⟩ := h
      subst hab
      simp only [List.length_cons, List.drop_succ_cons, List.cons_append]
      exact congrArg (a :: ·) (ih l' h2)

/-- The fuel-driven replacement loop realizes the declarative single-pass
replacement relation whenever the fuel covers the subject length. -/
theorem replaceAllAux_sound (pat rep : List Char) (hpat : pat ≠ []) :
    ∀ (fuel : Nat) (s : List Char), s.length ≤ fuel →
      ReplacedAll pat rep s (replaceAllAux fuel s pat rep) := by
  intro fuel
  induction fuel with
  | zero =>
    intro s hs
    have hnil : s = [] := by cases s <;> simp_all
    subst hnil
    exact ReplacedAll.nil
  | succ f ih =>
    intro s hs
    cases s with
    | nil => exact ReplacedAll.nil
    | cons c rest =>
      cases hpre : pat.isPrefixOf (c :: rest) with
      | true =>
        have hdecomp := isPrefixOf_append_drop pat (c :: rest) hpre
        have hp1 : 1 ≤ pat.length := by
          cases pat with
          | nil => exact absurd rfl hpat
          | cons a t => simp
        have hlen : ((c :: rest).drop pat.length).length ≤ f := by
          simp only [List.length_drop, List.length_cons] at hs ⊢
          omega
        have hstep := @ReplacedAll.hit pat rep
          ((c :: rest).drop pat.length) _ (ih _ hlen)
        rw [← hdecomp] at hstep
        simpa [replaceAllAux, hpre, hpat] using hstep
      | false =>
        have hrest : rest.length ≤ f := by simpa using hs
        have hstep := @ReplacedAll.keep pat rep c rest _ hpre (ih rest hrest)
        simpa [replaceAllAux, hpre] using hstep

/-- C6 counterexample: with a coords value carrying an interior occurrence of
the overview suffix, the replace call of the proxy removes the interior
occurrence along with the suffix, so the built target differs from the URL
with only its final suffix removed. -/
theorem proxy_overview_counterexample :
    proxyTarget (some "http://x") "http://d" "/a?overview=false;b?overview=false"
      = "http://x/route/v1/a;b"
    ∧ "http://x/route/v1/a;b" ≠ "http://x/route/v1/a?overview=false;b" :=
  ⟨by decide, by decide⟩

/-- C6 (amended): the proxy target is the override base when present and
non-empty else the default base, then the route path and coords with exactly
its first character dropped; a URL not ending with the overview suffix is
returned unchanged, and a URL ending with it is returned with every
non-overlapping occurrence of the suffix text removed in one left-to-right
pass, not only the final occurrence. -/
theorem proxy_target_amended (osrmURL : Option String) (defaultOsrm coords : String) :
    (pyEndsWith (proxyRawTarget osrmURL defaultOsrm coords) "?overview=false" = false →
      proxyTarget osrmURL defaultOsrm coords = proxyRawTarget osrmURL defaultOsrm coords)
    ∧ (pyEndsWith (proxyRawTarget osrmURL defaultOsrm coords) "?overview=false" = true →
      ReplacedAll ("?overview=false").data []
        (proxyRawTarget osrmURL defaultOsrm coords).data
        (proxyTarget osrmURL defaultOsrm coords).data) := by
  constructor
  · intro h
    simp [proxyTarget, h]
  · intro h
    have hgoal := replaceAllAux_sound ("?overview=false").data [] (by decide)
      (proxyRawTarget osrmURL defaultOsrm coords).data.length
      (proxyRawTarget osrmURL defaultOsrm coords).data le_rfl
    simpa [proxyTarget, h, pyReplace] using hgoal

/-- Witness for C6 at the proxy example of the spec, with the default base. -/
theorem proxy_target_amended_witness :
    ReplacedAll ("?overview=false").data []
      (proxyRawTarget none "http://r" "/52.1,13.4;52.2,13.5?overview=false").data
      (proxyTarget none "http://r" "/52.1,13.4;52.2,13.5?overview=false").data :=
  (proxy_target_amended none "http://r" "/52.1,13.4;52.2,13.5?overview=false").2 (by decide)

/-- The last decimal digit character is never the plus sign. -/
theorem digitOfNat_ne_plus (n : Nat) : digitOfNat n ≠ '+' := by
  unfold digitOfNat
  split <;> decide

/-- No plus sign occurs among decimal digit characters. -/
theorem mem_natDigitsAux_ne_plus :
    ∀ (fuel n : Nat) (c : Char), c ∈ natDigitsAux fuel n → c ≠ '+' := by
  intro fuel
  induction fuel with
  | zero => intro n c hc; simp [natDigitsAux] at hc
  | succ f ih =>
    intro n c hc
    by_cases h : n < 10
    · simp only [natDigitsAux, if_pos h, List.mem_singleton] at hc
      subst hc
      exact digitOfNat_ne_plus n
    · simp only [natDigitsAux, if_neg h, List.mem_append, List.mem_singleton] at hc
      rcases hc with hc | hc
      · exact ih _ _ hc
      · subst hc
        exact digitOfNat_ne_plus n

/-- No plus sign occurs in a zero-padded decimal rendering. -/
theorem mem_natPad_ne_plus (w n : Nat) (c : Char) (hc : c ∈ natPad w n) : c ≠ '+' := by
  unfold natPad at hc
  rw [List.mem_append] at hc
  rcases hc with hc | hc
  · have := List.eq_of_mem_replicate hc
    subst this
    decide
  · exact mem_natDigitsAux_ne_plus _ _ _ hc

/-- Concatenation preserves the absence of the plus sign. -/
theorem forall_mem_append_ne {l1 l2 : List Char}
    (h1 : ∀ c ∈ l1, c ≠ '+') (h2 : ∀ c ∈ l2, c ≠ '+') :
    ∀ c ∈ l1 ++ l2, c ≠ '+' := by
  intro c hc
  rcases List.mem_append.mp hc with h | h
  · exact h1 c h
  · exact h2 c h

/-- Prepending a non-plus character preserves the absence of the plus sign. -/
theorem forall_mem_cons_ne {a : Char} {l : List Char}
    (ha : a ≠ '+') (h : ∀ c ∈ l, c ≠ '+') :
    ∀ c ∈ a :: l, c ≠ '+' := by
  intro c hc
  rcases List.mem_cons.mp hc with h' | h'
  · simpa [h'] using ha
  · exact h c h'

/-- No plus sign occurs in the rendered date-time core. -/
theorem renderDateTimeMs_ne_plus (y : Int) (m d hh mi ss ms : Nat) :
    ∀ c ∈ renderDateTimeMs y m d hh mi ss ms, c ≠ '+' := by
  unfold renderDateTimeMs
  refine forall_mem_append_ne (fun c hc => mem_natPad_ne_plus _ _ _ hc) ?_
  refine forall_mem_cons_ne (by decide) ?_
  refine forall_mem_append_ne (fun c hc => mem_natPad_ne_plus _ _ _ hc) ?_
  refine forall_mem_cons_ne (by decide) ?_
  refine forall_mem_append_ne (fun c hc => mem_natPad_ne_plus _ _ _ hc) ?_
  refine forall_mem_cons_ne (by decide) ?_
  refine forall_mem_append_ne (fun c hc => mem_natPad_ne_plus _ _ _ hc) ?_
  refine forall_mem_cons_ne (by decide) ?_
  refine forall_mem_append_ne (fun c hc => mem_natPad_ne_plus _ _ _ hc) ?_
  refine forall_mem_cons_ne (by decide) ?_
  refine forall_mem_append_ne (fun c hc => mem_natPad_ne_plus _ _ _ hc) ?_
  refine forall_mem_cons_ne (by decide) ?_
  exact fun c hc => mem_natPad_ne_plus _ _ _ hc

/-- No plus sign occurs in the offset-free ISO rendering. -/
theorem isoNaiveMs_ne_plus (n : Int) : ∀ c ∈ (isoNaiveMs n).data, c ≠ '+' := by
  intro c hc
  exact renderDateTimeMs_ne_plus _ _ _ _ _ _ _ c (by simpa [isoNaiveMs] using hc)

/-- The replacement loop ignores the empty subject. -/
theorem replaceAllAux_nil (fuel : Nat) (pat rep : List Char) :
    replaceAllAux fuel [] pat rep = [] := by
  cases fuel <;> rfl

/-- Replacing the offset pattern in a text that is a plus-free prefix followed
by exactly the offset pattern replaces exactly that final pattern. -/
theorem replace_plus_offset (xs : List Char) :
    (∀ c ∈ xs, c ≠ '+') → ∀ fuel, xs.length + 6 ≤ fuel →
      replaceAllAux fuel (xs ++ ['+', '0', '0', ':', '0', '0'])
          ['+', '0', '0', ':', '0', '0'] ['Z']
        = xs ++ ['Z'] := by
  induction xs with
  | nil =>
    intro h fuel hf
    obtain ⟨f, rfl⟩ : ∃ f, fuel = f + 1 := ⟨fuel - 1, by omega⟩
    simp only [List.nil_append]
    rw [replaceAllAux, if_pos ⟨by decide, by decide⟩]
    simp [replaceAllAux_nil]
  | cons c xs ih =>
    intro h fuel hf
    obtain ⟨f, rfl⟩ : ∃ f, fuel = f + 1 := ⟨fuel - 1, by omega⟩
    have hc : c ≠ '+' := h c (List.mem_cons_self c xs)
    simp only [List.cons_append]
    rw [replaceAllAux, if_neg ?hneg]
    case hneg =>
      intro hcontra
      have hpre := hcontra.1
      simp only [List.isPrefixOf, Bool.and_eq_true, beq_iff_eq] at hpre
      exact hc hpre.1.symm
    rw [ih (fun d hd => h d (List.mem_cons_of_mem c hd)) f
      (by simp only [List.length_cons] at hf; omega)]

/-- The displayed fields of the ISO rendering only depend on the instant up to
millisecond truncation: the rendering of the truncated instant is the
rendering of the instant itself. -/
theorem isoNaiveMs_msTrunc (i : Int) : isoNaiveMs (msTruncMicro i) = isoNaiveMs i := by
  have hdvd : (i % 86400000000) % 1000 = i % 1000 :=
    Int.emod_emod_of_dvd i ⟨86400000, by norm_num⟩
  unfold isoNaiveMs
  have hdays : daysOf (msTruncMicro i) = daysOf i := by
    unfold daysOf msTruncMicro
    omega
  have hh : todOf (msTruncMicro i) / 3600000000 = todOf i / 3600000000 := by
    unfold todOf msTruncMicro
    omega
  have hmi : todOf (msTruncMicro i) / 60000000 % 60 = todOf i / 60000000 % 60 := by
    unfold todOf msTruncMicro
    omega
  have hss : todOf (msTruncMicro i) / 1000000 % 60 = todOf i / 1000000 % 60 := by
    unfold todOf msTruncMicro
    omega
  have hms : todOf (msTruncMicro i) / 1000 % 1000 = todOf i / 1000 % 1000 := by
    unfold todOf msTruncMicro
    omega
  rw [hdays, hh, hmi, hss, hms]

/-- Appending the letter Z makes a text whose endswith test for Z succeeds. -/
theorem pyEndsWith_append_z (s : String) : pyEndsWith (s ++ "Z") "Z" = true := by
  unfold pyEndsWith
  have h : (s ++ ("Z" : String)).data = s.data ++ ['Z'] := rfl
  rw [h]
  simp [List.isSuffixOf, List.isPrefixOf]

/-- A text ending in the letter Z does not end with the offset text. -/
theorem pyEndsWith_append_z_offset (s : String) :
    pyEndsWith (s ++ "Z") "+00:00" = false := by
  unfold pyEndsWith
  have h : (s ++ ("Z" : String)).data = s.data ++ ['Z'] := rfl
  rw [h]
  simp [List.isSuffixOf, List.isPrefixOf]

/-- C8 (amended): for every parsed client date-time, naive or UTC-zoned, the
normalizer of the location handler outputs exactly the UTC rendering, with a
literal Z suffix and never a +00:00 suffix, of the denoted instant truncated
to millisecond precision, where a naive input is interpreted at the local
offset of the server; when the input instant has no sub-millisecond component
the output renders exactly the input instant, so the round trip of a
millisecond-precision UTC input preserves the instant. -/
theorem time_normalizer_wire (dt : PyDatetime) (loc : Int) :
    convertToUTCWire dt loc = isoNaiveMs (msTruncMicro (instantMicro dt loc)) ++ "Z"
    ∧ pyEndsWith (convertToUTCWire dt loc) "Z" = true
    ∧ pyEndsWith (convertToUTCWire dt loc) "+00:00" = false
    ∧ (instantMicro dt loc % 1000 = 0 →
        convertToUTCWire dt loc = isoNaiveMs (instantMicro dt loc) ++ "Z") := by
  have hwire : convertToUTCWire dt loc
      = pyReplace (isoNaiveMs (instantMicro dt loc) ++ "+00:00") "+00:00" "Z" := rfl
  have hdata : (isoNaiveMs (instantMicro dt loc) ++ ("+00:00" : String)).data
      = (isoNaiveMs (instantMicro dt loc)).data ++ ['+', '0', '0', ':', '0', '0'] := rfl
  have hrepl : pyReplace (isoNaiveMs (instantMicro dt loc) ++ "+00:00") "+00:00" "Z"
      = isoNaiveMs (instantMicro dt loc) ++ "Z" := by
    unfold pyReplace
    rw [hdata]
    have hfuel : ((isoNaiveMs (instantMicro dt loc)).data
        ++ ['+', '0', '0', ':', '0', '0']).length
        = (isoNaiveMs (instantMicro dt loc)).data.length + 6 := by
      simp
    rw [hfuel]
    rw [show ("+00:00" : String).data = ['+', '0', '0', ':', '0', '0'] from rfl,
        show ("Z" : String).data = ['Z'] from rfl]
    rw [replace_plus_offset _ (isoNaiveMs_ne_plus _) _ le_rfl]
    rfl
  have hmain : convertToUTCWire dt loc
      = isoNaiveMs (msTruncMicro (instantMicro dt loc)) ++ "Z" := by
    rw [hwire, hrepl, isoNaiveMs_msTrunc]
  refine ⟨hmain, ?_, ?_, fun hz => ?_⟩
  · rw [hmain]
    exact pyEndsWith_append_z _
  · rw [hmain]
    exact pyEndsWith_append_z_offset _
  · have htr : msTruncMicro (instantMicro dt loc) = instantMicro dt loc := by
      unfold msTruncMicro
      omega
    rw [hmain, htr]

/-- Witness for C8 at a concrete naive date-time and a one-hour local
offset. -/
theorem time_normalizer_wire_witness :
    convertToUTCWire ⟨1700000000123000, none⟩ 3600
      = isoNaiveMs (instantMicro ⟨1700000000123000, none⟩ 3600) ++ "Z" :=
  (time_normalizer_wire ⟨1700000000123000, none⟩ 3600).2.2.2 (by decide)

/-- C8 counterexample: two UTC-zoned inputs lying 500 microseconds apart
denote different instants yet normalize to the identical output text, so the
output of the normalizer does not always denote the same instant as a
UTC-zoned input: sub-millisecond precision is truncated. -/
theorem time_normalizer_counterexample :
    convertToUTCWire ⟨500, some 0⟩ 0 = convertToUTCWire ⟨0, some 0⟩ 0
    ∧ instantMicro ⟨500, some 0⟩ 0 ≠ instantMicro ⟨0, some 0⟩ 0 :=
  ⟨by decide, by decide⟩

end WHIB
